import Mathlib

/-!
Shallow embedding of the MedicalManager Django repository
(apps `patients`, `pharmacy`, `finance`, `staff`), for checking the
natural-language specification against the code.

Conventions:
* Money fields (`DecimalField(max_digits=..., decimal_places=2)`) are
  modelled in integer cents (`Int`), so `12.50` is `1250`.
* `IntegerField` quantities are `Int`.
* Nullable columns are `Option _`; timestamps are abstract `Nat` ticks.
* Django rows are Lean structures; the database is either a function
  from ids or explicit lists, as each operation needs.
-/

namespace MedicalManager

/-! ## Pharmacy data model (`src/pharmacy/models.py`) -/

/-- Prescription status (`Prescription.STATUS_CHOICES`). -/
inductive PStatus
  | draft
  | issued
  | dispensed
  | cancelled
deriving DecidableEq, Repr

/-- Model-level default for `Prescription.status`
(`status = models.CharField(..., default="draft")`, `pharmacy/models.py:133`). -/
def prescriptionDefaultStatus : PStatus := .draft

/-- A prescription item as created by the seed script: the fields relevant
to the claims (`PrescriptionItem` in `pharmacy/models.py`): the referenced
drug, `quantity`, and the `unit_price` snapshot (cents). -/
structure Item where
  drugId : Nat
  quantity : Int
  unit_price : Int
deriving DecidableEq, Repr

/-- The prescription fields relevant to the claims
(`Prescription` in `pharmacy/models.py`), with its items list. -/
structure Prescription where
  status : PStatus
  issued_at : Option Nat
  dispensed_at : Option Nat
  items : List Item
deriving DecidableEq, Repr

/-! ## The seed script's dispense path
(`src/patients/management/commands/seed_demo.py`) -/

/-- One drug choice drawn in the seed loop
(`seed_demo.py:397`, `qty = random.randint(1, 3)` at line 401):
the chosen drug and the prescribed quantity. -/
structure Choice where
  drugId : Nat
  qty : Int
deriving DecidableEq, Repr

/-- The per-item inventory deduction the seed script performs
(`seed_demo.py:405-410`):

```
inv = d.inventory
if inv.quantity < qty:
    inv.quantity += 200
inv.quantity -= qty
```

`n` is the on-hand quantity, `q` the item quantity. There is no failure
outcome: the function is total and never raises. -/
def seedDeduct (n q : Int) : Int :=
  let n1 := if n < q then n + 200 else n
  n1 - q

/-- One step of the seed dispense loop on the whole inventory state
(quantity per drug id): deduct choice `c` from its drug's inventory. -/
def dispenseStep (s : Nat → Int) (c : Choice) : Nat → Int :=
  fun d => if d = c.drugId then seedDeduct (s d) c.qty else s d

/-- The seed dispense loop over a list of choices
(`for d in drug_choices:` body, `seed_demo.py:400-410`). -/
def dispenseRun (s : Nat → Int) (choices : List Choice) : Nat → Int :=
  choices.foldl dispenseStep s

/-- Prescription creation as the seed script performs it
(`seed_demo.py:386-393`): `Prescription.objects.create(..., status="issued",
issued_at=issued_time)`. No items exist yet at this point; they are created
afterwards (`seed_demo.py:412-419`). -/
def seedCreateRx (t : Nat) : Prescription :=
  { status := .issued, issued_at := some t, dispensed_at := none, items := [] }

/-- The item rows the seed loop creates for the chosen drugs
(`seed_demo.py:412-419`): `unit_price` is snapshotted from the drug's
current `sale_price` (the `catalog` map, drug id to sale price in cents). -/
def seedItems (catalog : Nat → Int) (choices : List Choice) : List Item :=
  choices.map (fun c => { drugId := c.drugId, quantity := c.qty, unit_price := catalog c.drugId })

/-- The running float total the seed loop accumulates
(`total += price * qty`, `seed_demo.py:402-403`), in cents. -/
def seedTotal (catalog : Nat → Int) (choices : List Choice) : Int :=
  (choices.map (fun c => catalog c.drugId * c.qty)).sum

/-- Marking the prescription dispensed after the item loop
(`seed_demo.py:422-425`): sets `status = "dispensed"` and `dispensed_at`.
This write is unconditional: it does not inspect inventory levels. -/
def seedDispenseMark (rx : Prescription) (t : Nat) : Prescription :=
  { rx with status := .dispensed, dispensed_at := some t }

/-- The whole per-visit prescription flow of the seed script: create the
prescription at `issued`, add the items, deduct inventory, mark dispensed.
Returns the final prescription and the final inventory state. -/
def seedRxFlow (catalog : Nat → Int) (inv : Nat → Int) (choices : List Choice)
    (t1 t2 : Nat) : Prescription × (Nat → Int) :=
  let rx := seedCreateRx t1
  let rx := { rx with items := seedItems catalog choices }
  let inv' := dispenseRun inv choices
  (seedDispenseMark rx t2, inv')

/-- The status writes the seed program performs on an existing
prescription row: the single assignment `rx.status = "dispensed"` at
`seed_demo.py:423`, applied to the row created in state `issued`
(`seed_demo.py:390`). -/
inductive SeedRxStep : PStatus → PStatus → Prop
  | dispense : SeedRxStep .issued .dispensed

/-! ## Finance data model and the seed billing flow
(`src/finance/models.py`, `seed_demo.py:427-463`) -/

/-- Invoice status (`Invoice.STATUS_CHOICES`, `finance/models.py:61-65`). -/
inductive IStatus
  | unpaid
  | paid
  | refunded
deriving DecidableEq, Repr

/-- The invoice fields relevant to the claims (`Invoice` in
`finance/models.py`), with its payment rows (each payment's `amount`,
in cents) kept alongside. -/
structure Invoice where
  total_amount : Int
  status : IStatus
  paid_at : Option Nat
  payments : List Int
deriving DecidableEq, Repr

/-- Invoice creation as the seed script performs it (`seed_demo.py:436-445`):
`total_amount = round(total, 2)` (the accumulated items total; exact in
cents), `status = "unpaid"`, no payments yet. -/
def mkSeedInvoice (catalog : Nat → Int) (choices : List Choice) : Invoice :=
  { total_amount := seedTotal catalog choices
    status := .unpaid
    paid_at := none
    payments := [] }

/-- The optional payment step of the seed script (`seed_demo.py:449-463`):
with probability `paid_rate` (here the boolean `pay`), create one `Payment`
with `amount = invoice.total_amount`, then set `status = "paid"` and
`paid_at`. Otherwise the invoice is left untouched. -/
def seedPay (i : Invoice) (pay : Bool) (tm : Nat) : Invoice :=
  if pay then
    { i with payments := i.payments ++ [i.total_amount]
             status := .paid
             paid_at := some tm }
  else i

/-- The display total computed by `patient_prescription_detail`
(`staff/views.py:196-197`):
`sum(Decimal(str(item.quantity)) * item.unit_price for item in items)`. -/
def prescriptionDetailTotal (items : List Item) : Int :=
  (items.map (fun it => it.quantity * it.unit_price)).sum

/-- A database view pairing the live drug catalog (drug id to current
`sale_price`, cents) with the invoice rows, used to state that later
catalog edits do not touch invoices. -/
structure BillingDB where
  catalog : Nat → Int
  invoices : List Invoice

/-- A later edit of one drug's `sale_price` (`Drug.sale_price`,
`pharmacy/models.py:98`): updates the catalog entry, nothing else. -/
def updateSalePrice (db : BillingDB) (d : Nat) (p : Int) : BillingDB :=
  { db with catalog := fun x => if x = d then p else db.catalog x }

/-! ## Authorization gate (`src/staff/decorators.py`) -/

/-- The staff fields the gate reads (`StaffProfile` in `staff/models.py`):
`role` (one of the `ROLE_CHOICES` strings) and `is_active`. -/
structure StaffProfile where
  role : String
  is_active : Bool
deriving DecidableEq, Repr

/-- An authenticated caller as the decorator sees it: whether
`user.patient_profile` exists, and the `user.staff_profile` row if any. -/
structure Caller where
  hasPatientProfile : Bool
  staff : Option StaffProfile
deriving DecidableEq, Repr

/-- Outcome of a gated request: the wrapped view runs, or the caller is
redirected with the account-disabled message (`decorators.py:38-39`), or
with the no-permission message (`decorators.py:45-46`). -/
inductive GateResult
  | runView
  | accountDisabled
  | denied
deriving DecidableEq, Repr

/-- The `role_required(*allowed_roles)` decorator body
(`staff/decorators.py:26-46`), for an authenticated caller:

```
if 'patient' in allowed_roles:
    if hasattr(user, 'patient_profile'):
        return view_func(...)
if hasattr(user, 'staff_profile'):
    staff = user.staff_profile
    if not staff.is_active:
        return redirect('login')        # AccountDisabled
    if staff.role in allowed_roles:
        return view_func(...)
return redirect('dashboard')            # denied
``` -/
def role_required (allowed_roles : List String) (c : Caller) : GateResult :=
  if "patient" ∈ allowed_roles ∧ c.hasPatientProfile then .runView
  else
    match c.staff with
    | some staff =>
        if staff.is_active = false then .accountDisabled
        else if staff.role ∈ allowed_roles then .runView
        else .denied
    | none => .denied

/-- The caller's resolved staff profile, following `get_user_profile`
(`staff/decorators.py:79-97`): a `patient_profile` takes precedence, so a
StaffProfile is the resolved profile only when the caller has no patient
profile. -/
def resolvedStaff (c : Caller) : Option StaffProfile :=
  if c.hasPatientProfile then none else c.staff

/-! ## Patient self-service profile edit (`src/staff/views.py:119-144`) -/

/-- The patient fields (`Patient` in `patients/models.py`). Timestamps are
omitted; `date_of_birth` and `id_number` are nullable. -/
structure Patient where
  patient_no : String
  name : String
  gender : String
  date_of_birth : Option Nat
  phone : String
  id_number : Option String
  address : String
  emergency_contact : String
  emergency_phone : String
  blood_type : String
  allergy_history : String
  medical_history : String
deriving DecidableEq, Repr

/-- The POST data of the profile-edit form: `request.POST.get(key, fallback)`
yields the posted value when the key is present, else the fallback. -/
structure ProfilePost where
  name : Option String
  phone : Option String
  address : Option String
  emergency_contact : Option String
  emergency_phone : Option String
  blood_type : Option String
  allergy_history : Option String
  medical_history : Option String
deriving DecidableEq, Repr

/-- The POST branch of `patient_edit_profile` (`staff/views.py:126-136`)
applied to one patient row: each self-service field is set to the posted
value, defaulting to the current value; nothing else is assigned. -/
def patient_edit_profile (post : ProfilePost) (p : Patient) : Patient :=
  { p with
    name := post.name.getD p.name
    phone := post.phone.getD p.phone
    address := post.address.getD p.address
    emergency_contact := post.emergency_contact.getD p.emergency_contact
    emergency_phone := post.emergency_phone.getD p.emergency_phone
    blood_type := post.blood_type.getD p.blood_type
    allergy_history := post.allergy_history.getD p.allergy_history
    medical_history := post.medical_history.getD p.medical_history }

/-- The edit against the patient table: the view resolves
`patient = get_user_profile(request.user)` (the caller's own row) and saves
only that row; every other row is untouched. -/
def patientEditProfileDB (db : Nat → Patient) (caller : Nat)
    (post : ProfilePost) : Nat → Patient :=
  fun i => if i = caller then patient_edit_profile post (db caller) else db i

/-! ## Deletion semantics

Django's delete collector, specialised to the `on_delete` flags declared in
the models:

* `Visit.patient → Patient` PROTECT (`patients/models.py:104`)
* `Visit.doctor → StaffProfile` PROTECT (`patients/models.py:105`)
* `Inventory.drug → Drug` CASCADE (`pharmacy/models.py:112`)
* `Prescription.visit → Visit` PROTECT (`pharmacy/models.py:131`)
* `Prescription.doctor → StaffProfile` PROTECT (`pharmacy/models.py:132`)
* `PrescriptionItem.prescription → Prescription` CASCADE (`pharmacy/models.py:145`)
* `PrescriptionItem.drug → Drug` PROTECT (`pharmacy/models.py:146`)
* `Invoice.visit → Visit` PROTECT (`finance/models.py:68`)
* `Invoice.patient → Patient` PROTECT (`finance/models.py:69`)
* `Invoice.issued_by → StaffProfile` PROTECT (`finance/models.py:70`)
* `Payment.invoice → Invoice` PROTECT (`finance/models.py:96`)
* `Payment.received_by → StaffProfile` PROTECT (`finance/models.py:99`)

A delete raises `ProtectedError` (here `Except.error ()`) when any row
references the target through a PROTECT foreign key, and otherwise removes
the target together with its CASCADE referrers. -/

/-- A `Visit` row's foreign keys. -/
structure VisitRec where
  id : Nat
  patient : Nat
  doctor : Option Nat
deriving DecidableEq, Repr

/-- A `Prescription` row's foreign keys. -/
structure RxRec where
  id : Nat
  visit : Nat
  doctor : Option Nat
deriving DecidableEq, Repr

/-- A `PrescriptionItem` row's foreign keys. -/
structure ItemRec where
  id : Nat
  rx : Nat
  drug : Nat
deriving DecidableEq, Repr

/-- An `Invoice` row's foreign keys. -/
structure InvoiceRec where
  id : Nat
  visit : Nat
  patient : Nat
  issued_by : Option Nat
deriving DecidableEq, Repr

/-- A `Payment` row's foreign keys. -/
structure PaymentRec where
  id : Nat
  invoice : Nat
  received_by : Option Nat
deriving DecidableEq, Repr

/-- The relational state: entity rows by id. `inventories` lists the drug
ids owning an `Inventory` row (`Inventory.drug` is one-to-one). -/
structure RelDB where
  patients : List Nat
  staff : List Nat
  drugs : List Nat
  inventories : List Nat
  visits : List VisitRec
  prescriptions : List RxRec
  rxItems : List ItemRec
  invoices : List InvoiceRec
  payments : List PaymentRec
deriving DecidableEq, Repr

/-- `Patient.delete()`: `Visit.patient` and `Invoice.patient` are PROTECT,
so any referencing row refuses the delete. No CASCADE referrers. -/
def deletePatient (db : RelDB) (p : Nat) : Except Unit RelDB :=
  if db.visits.any (fun v => v.patient = p) || db.invoices.any (fun i => i.patient = p) then
    .error ()
  else
    .ok { db with patients := db.patients.filter (fun x => x ≠ p) }

/-- `Visit.delete()`: `Prescription.visit` and `Invoice.visit` are PROTECT.
No CASCADE referrers. -/
def deleteVisit (db : RelDB) (v : Nat) : Except Unit RelDB :=
  if db.prescriptions.any (fun r => r.visit = v) || db.invoices.any (fun i => i.visit = v) then
    .error ()
  else
    .ok { db with visits := db.visits.filter (fun x => x.id ≠ v) }

/-- `StaffProfile.delete()`: `Visit.doctor`, `Prescription.doctor`,
`Invoice.issued_by` and `Payment.received_by` are all PROTECT. -/
def deleteStaffProfile (db : RelDB) (s : Nat) : Except Unit RelDB :=
  if db.visits.any (fun v => v.doctor = some s)
      || db.prescriptions.any (fun r => r.doctor = some s)
      || db.invoices.any (fun i => i.issued_by = some s)
      || db.payments.any (fun p => p.received_by = some s) then
    .error ()
  else
    .ok { db with staff := db.staff.filter (fun x => x ≠ s) }

/-- `Invoice.delete()`: `Payment.invoice` is PROTECT. -/
def deleteInvoice (db : RelDB) (i : Nat) : Except Unit RelDB :=
  if db.payments.any (fun p => p.invoice = i) then
    .error ()
  else
    .ok { db with invoices := db.invoices.filter (fun x => x.id ≠ i) }

/-- `Drug.delete()`: `PrescriptionItem.drug` is PROTECT, but
`Inventory.drug` is CASCADE — when no item references the drug, the delete
succeeds and removes the drug's `Inventory` row with it. -/
def deleteDrug (db : RelDB) (d : Nat) : Except Unit RelDB :=
  if db.rxItems.any (fun it => it.drug = d) then
    .error ()
  else
    .ok { db with drugs := db.drugs.filter (fun x => x ≠ d)
                  inventories := db.inventories.filter (fun x => x ≠ d) }

/-- `Prescription.delete()`: nothing PROTECTs a prescription;
`PrescriptionItem.prescription` is CASCADE, so its items are removed
with it. -/
def deletePrescription (db : RelDB) (r : Nat) : Except Unit RelDB :=
  .ok { db with prescriptions := db.prescriptions.filter (fun x => x.id ≠ r)
                rxItems := db.rxItems.filter (fun x => x.rx ≠ r) }

/-! ## Helper lemmas -/

/-- The seed deduction keeps the quantity non-negative whenever the item
quantity lies in the range the seed actually draws
(random.randint(1, 3) at seed_demo.py:401, so at most the 200 restock). -/
theorem seedDeduct_nonneg {n q : Int} (hn : 0 ≤ n) (h1 : 1 ≤ q) (h3 : q ≤ 3) :
    0 ≤ seedDeduct n q := by
  simp only [seedDeduct]
  split <;> omega

/-- A dispense step keeps every inventory quantity non-negative when the
choice quantity is in the drawn range. -/
theorem dispenseStep_nonneg {s : Nat → Int} {c : Choice}
    (h0 : ∀ d, 0 ≤ s d) (h1 : 1 ≤ c.qty) (h3 : c.qty ≤ 3) :
    ∀ d, 0 ≤ dispenseStep s c d := by
  intro d
  simp only [dispenseStep]
  split
  · exact seedDeduct_nonneg (h0 d) h1 h3
  · exact h0 d

/-- The accumulated seed total equals the display total over the created
items (sum of quantity times snapshotted unit price). -/
theorem seedTotal_eq_detail (catalog : Nat → Int) (choices : List Choice) :
    seedTotal catalog choices = prescriptionDetailTotal (seedItems catalog choices) := by
  induction choices with
  | nil => rfl
  | cons c cs ih =>
    simp only [seedTotal, seedItems, prescriptionDetailTotal, List.map_cons,
      List.sum_cons] at ih ⊢
    rw [mul_comm (catalog c.drugId) c.qty, ih]

/-- The seed total is positive: at least one item, each quantity at least
one, each catalog price positive. -/
theorem seedTotal_pos (catalog : Nat → Int) (choices : List Choice)
    (hne : choices ≠ [])
    (hq : ∀ c ∈ choices, 1 ≤ c.qty)
    (hp : ∀ c ∈ choices, 0 < catalog c.drugId) :
    0 < seedTotal catalog choices := by
  match choices with
  | [] => exact absurd rfl hne
  | c :: cs =>
    simp only [seedTotal, List.map_cons, List.sum_cons]
    have hterm : 0 < catalog c.drugId * c.qty :=
      mul_pos (hp c (by simp)) (lt_of_lt_of_le one_pos (hq c (by simp)))
    have hrest : 0 ≤ (cs.map (fun c => catalog c.drugId * c.qty)).sum := by
      apply List.sum_nonneg
      intro x hx
      obtain ⟨c', hc', rfl⟩ := List.mem_map.mp hx
      have := hq c' (by simp [hc'])
      have := hp c' (by simp [hc'])
      positivity
    linarith

/-! ## Claim theorems -/

/-- Claim C1: starting from any inventory state in which every quantity is
non-negative, after any sequence of the deduction steps the program
performs (item quantities drawn from 1..3), every quantity is still
non-negative. -/
theorem dispense_sequence_preserves_nonneg (s : Nat → Int) (choices : List Choice)
    (h0 : ∀ d, 0 ≤ s d)
    (hq : ∀ c ∈ choices, 1 ≤ c.qty ∧ c.qty ≤ 3) :
    ∀ d, 0 ≤ dispenseRun s choices d := by
  induction choices generalizing s with
  | nil => simpa [dispenseRun] using h0
  | cons c cs ih =>
    intro d
    have hc := hq c (List.mem_cons_self _ _)
    have hstep := dispenseStep_nonneg h0 hc.1 hc.2 (c := c)
    have htail : ∀ c' ∈ cs, 1 ≤ c'.qty ∧ c'.qty ≤ 3 :=
      fun c' hc' => hq c' (List.mem_cons_of_mem _ hc')
    have := ih (dispenseStep s c) hstep htail
    simpa [dispenseRun, List.foldl_cons] using this d

/-- Witness for C1 at a concrete state: start with 5 of drug 0, dispense
quantities 2 then 3; the resulting quantity is non-negative. -/
theorem dispense_sequence_preserves_nonneg_witness :
    0 ≤ dispenseRun (fun _ => 5) [⟨0, 2⟩, ⟨0, 3⟩] 0 :=
  dispense_sequence_preserves_nonneg (fun _ => 5) [⟨0, 2⟩, ⟨0, 3⟩]
    (fun _ => by show (0 : Int) ≤ 5; decide) (by decide) 0

/-- Claim C2 counterexample: with 1 on hand and an item requiring 2, the
program's dispense does not fail and does not leave the quantity
unchanged — it restocks by 200 and deducts (1 becomes 199), and the
prescription is still marked dispensed. This falsifies the claim that
such a dispense fails with InsufficientStock and leaves the quantity
unchanged. -/
theorem dispense_insufficient_counterexample :
    dispenseRun (fun _ => 1) [⟨0, 2⟩] 0 = 199
      ∧ ¬ dispenseRun (fun _ => 1) [⟨0, 2⟩] 0 = 1
      ∧ (seedDispenseMark (seedCreateRx 0) 1).status = PStatus.dispensed := by
  refine ⟨by decide, by decide, rfl⟩

/-- Claim C2 amended: dispensing a prescription that requires more of a drug
than is on hand never fails — there is no InsufficientStock outcome in
the dispense path; a short item's drug is first restocked by 200 and then
deducted, and the prescription is marked dispensed regardless. -/
theorem dispense_insufficient_restocks (catalog inv : Nat → Int)
    (choices : List Choice) (t1 t2 : Nat) (n q : Int) (h : n < q) :
    seedDeduct n q = n + 200 - q
      ∧ (seedRxFlow catalog inv choices t1 t2).1.status = PStatus.dispensed := by
  constructor
  · simp only [seedDeduct]
    split <;> omega
  · rfl

/-- Witness for the amended C2: 1 on hand, item quantity 2: the deduction
yields 199 and the (empty-choice) flow still marks the prescription
dispensed. -/
theorem dispense_insufficient_restocks_witness :
    seedDeduct 1 2 = 1 + 200 - 2
      ∧ (seedRxFlow (fun _ => 0) (fun _ => 1) [⟨0, 2⟩] 0 1).1.status = PStatus.dispensed :=
  dispense_insufficient_restocks (fun _ => 0) (fun _ => 1) [⟨0, 2⟩] 0 1 1 2 (by decide)

/-- Claim C3: the per-item deduction in the program's dispense path always
succeeds (it is a total function with no failure outcome): the resulting
quantity is n - q when q ≤ n, and n + 200 - q when n < q. -/
theorem seedDeduct_cases (n q : Int) :
    (q ≤ n → seedDeduct n q = n - q) ∧ (n < q → seedDeduct n q = n + 200 - q) := by
  constructor <;> intro h <;> simp only [seedDeduct] <;> split <;> omega

/-- Witness for C3 at concrete inputs: 5 on hand minus 2 gives 3;
1 on hand minus 3 gives 198 (after the 200 restock). -/
theorem seedDeduct_cases_witness :
    seedDeduct 5 2 = 5 - 2 ∧ seedDeduct 1 3 = 1 + 200 - 3 :=
  ⟨(seedDeduct_cases 5 2).1 (by decide), (seedDeduct_cases 1 3).2 (by decide)⟩

/-- Claim C4: the invoice total the program creates equals the sum over the
prescription's items of quantity times the unit price snapshotted at
item-creation time (the display total of patient_prescription_detail),
and a later change to a drug's sale price leaves the created invoice
rows untouched. -/
theorem invoice_total_eq_item_sum (catalog inv : Nat → Int) (choices : List Choice)
    (t1 t2 : Nat) (d : Nat) (p : Int) :
    (mkSeedInvoice catalog choices).total_amount
        = prescriptionDetailTotal ((seedRxFlow catalog inv choices t1 t2).1.items)
      ∧ (updateSalePrice ⟨catalog, [mkSeedInvoice catalog choices]⟩ d p).invoices
        = [mkSeedInvoice catalog choices] := by
  constructor
  · show seedTotal catalog choices = _
    rw [seedTotal_eq_detail]
    rfl
  · rfl

/-- Claim C5: the seeded invoice becomes paid exactly when the cumulative sum of
its payment amounts reaches the total (the seed either records no payment,
or one payment of exactly the total and then marks the invoice paid and
sets paid_at); while the payments sum to less than the total the status
stays unpaid. The positivity hypotheses record what the seed guarantees:
at least one item per prescription, quantities at least 1, catalog prices
positive. -/
theorem invoice_paid_iff_payments_reach_total (catalog : Nat → Int)
    (choices : List Choice) (pay : Bool) (tm : Nat) (i : Invoice)
    (hi : i = seedPay (mkSeedInvoice catalog choices) pay tm)
    (hne : choices ≠ [])
    (hq : ∀ c ∈ choices, 1 ≤ c.qty)
    (hp : ∀ c ∈ choices, 0 < catalog c.drugId) :
    (i.status = IStatus.paid ↔ i.total_amount ≤ i.payments.sum)
      ∧ (i.payments.sum < i.total_amount → i.status = IStatus.unpaid)
      ∧ (i.status = IStatus.paid → i.paid_at.isSome = true) := by
  have htot : 0 < seedTotal catalog choices := seedTotal_pos catalog choices hne hq hp
  subst hi
  cases pay with
  | true =>
      simp [seedPay, mkSeedInvoice]
  | false =>
      simp [seedPay, mkSeedInvoice]
      omega

/-- Witness for C5 at a concrete input: one item of drug 0, quantity 1,
price 100 cents; with a payment the invoice is paid and paid_at is set,
and the paid status is equivalent to the payments covering the total. -/
theorem invoice_paid_iff_payments_reach_total_witness :
    ((seedPay (mkSeedInvoice (fun _ => 100) [⟨0, 1⟩]) true 7).status = IStatus.paid
        ↔ (seedPay (mkSeedInvoice (fun _ => 100) [⟨0, 1⟩]) true 7).total_amount
            ≤ ((seedPay (mkSeedInvoice (fun _ => 100) [⟨0, 1⟩]) true 7).payments).sum)
      ∧ (((seedPay (mkSeedInvoice (fun _ => 100) [⟨0, 1⟩]) true 7).payments).sum
            < (seedPay (mkSeedInvoice (fun _ => 100) [⟨0, 1⟩]) true 7).total_amount
          → (seedPay (mkSeedInvoice (fun _ => 100) [⟨0, 1⟩]) true 7).status = IStatus.unpaid)
      ∧ ((seedPay (mkSeedInvoice (fun _ => 100) [⟨0, 1⟩]) true 7).status = IStatus.paid
          → ((seedPay (mkSeedInvoice (fun _ => 100) [⟨0, 1⟩]) true 7).paid_at).isSome = true) :=
  invoice_paid_iff_payments_reach_total (fun _ => 100) [⟨0, 1⟩] true 7 _ rfl
    (by decide) (by decide) (fun c _ => by show (0 : Int) < 100; decide)

/-- Claim C6 counterexample: the prescription the program creates starts in
status issued, not draft — at the concrete creation time 0 the created
row has status issued, and issued is not draft. -/
theorem prescription_created_issued_counterexample :
    (seedCreateRx 0).status = PStatus.issued ∧ PStatus.issued ≠ PStatus.draft := by
  refine ⟨rfl, by decide⟩

/-- Claim C6 amended: the model default status is draft, but every prescription
the program creates is created directly in status issued; the only status
change any operation performs is issued to dispensed — in particular the
changed row is never dispensed or cancelled beforehand. -/
theorem prescription_status_transitions (t : Nat) (s s' : PStatus)
    (h : SeedRxStep s s') :
    prescriptionDefaultStatus = PStatus.draft
      ∧ (seedCreateRx t).status = PStatus.issued
      ∧ s = PStatus.issued ∧ s' = PStatus.dispensed
      ∧ s ≠ PStatus.dispensed ∧ s ≠ PStatus.cancelled := by
  cases h
  exact ⟨rfl, rfl, rfl, rfl, by decide, by decide⟩

/-- Witness for the amended C6: the one status write the program performs
(issued to dispensed) satisfies the transition description. -/
theorem prescription_status_transitions_witness :
    prescriptionDefaultStatus = PStatus.draft
      ∧ (seedCreateRx 0).status = PStatus.issued
      ∧ PStatus.issued = PStatus.issued ∧ PStatus.dispensed = PStatus.dispensed
      ∧ PStatus.issued ≠ PStatus.dispensed ∧ PStatus.issued ≠ PStatus.cancelled :=
  prescription_status_transitions 0 PStatus.issued PStatus.dispensed SeedRxStep.dispense

/-- Claim C7 counterexample: at the moment the program puts a prescription into
status issued (its creation), the prescription has zero items, and no
EmptyPrescription failure occurs — falsifying the claim that a
prescription can reach issued only with at least one item. -/
theorem issued_with_zero_items_counterexample :
    (seedCreateRx 0).status = PStatus.issued ∧ (seedCreateRx 0).items = [] := by
  exact ⟨rfl, rfl⟩

/-- Claim C7 amended: the program creates each prescription directly in status
issued with zero items (there is no EmptyPrescription check); the items
are added afterwards, and every prescription it then marks dispensed has
at least one item, since the seed draws at least one drug choice. -/
theorem issued_then_items_added (catalog inv : Nat → Int) (choices : List Choice)
    (t1 t2 : Nat) (hlen : 1 ≤ choices.length) :
    (seedCreateRx t1).status = PStatus.issued
      ∧ (seedCreateRx t1).items.length = 0
      ∧ (seedRxFlow catalog inv choices t1 t2).1.status = PStatus.dispensed
      ∧ 1 ≤ (seedRxFlow catalog inv choices t1 t2).1.items.length := by
  refine ⟨rfl, rfl, rfl, ?_⟩
  show 1 ≤ (seedItems catalog choices).length
  simpa [seedItems] using hlen

/-- Witness for the amended C7 at one concrete drug choice. -/
theorem issued_then_items_added_witness :
    (seedCreateRx 0).status = PStatus.issued
      ∧ (seedCreateRx 0).items.length = 0
      ∧ (seedRxFlow (fun _ => 100) (fun _ => 5) [⟨0, 2⟩] 0 1).1.status = PStatus.dispensed
      ∧ 1 ≤ (seedRxFlow (fun _ => 100) (fun _ => 5) [⟨0, 2⟩] 0 1).1.items.length :=
  issued_then_items_added (fun _ => 100) (fun _ => 5) [⟨0, 2⟩] 0 1 (by decide)

/-- Claim C8: whenever the caller's resolved profile is a StaffProfile with
is_active false, the role_required gate answers AccountDisabled for every
allowed-roles set, and the wrapped view never runs. -/
theorem inactive_staff_always_disabled (c : Caller) (s : StaffProfile)
    (allowed : List String)
    (hres : resolvedStaff c = some s) (hinactive : s.is_active = false) :
    role_required allowed c = GateResult.accountDisabled
      ∧ role_required allowed c ≠ GateResult.runView := by
  have hp : c.hasPatientProfile = false := by
    by_contra h
    simp only [resolvedStaff, Bool.not_eq_false] at h
    simp [resolvedStaff, h] at hres
  have hstaff : c.staff = some s := by
    simpa [resolvedStaff, hp] using hres
  have hgate : role_required allowed c = GateResult.accountDisabled := by
    simp [role_required, hp, hstaff, hinactive]
  exact ⟨hgate, by simp [hgate]⟩

/-- Witness for C8: a caller with no patient profile and an inactive
doctor staff profile, against a gate allowing doctors, is answered
AccountDisabled and the view does not run. -/
theorem inactive_staff_always_disabled_witness :
    role_required ["doctor"] ⟨false, some ⟨"doctor", false⟩⟩ = GateResult.accountDisabled
      ∧ role_required ["doctor"] ⟨false, some ⟨"doctor", false⟩⟩ ≠ GateResult.runView :=
  inactive_staff_always_disabled ⟨false, some ⟨"doctor", false⟩⟩ ⟨"doctor", false⟩
    ["doctor"] rfl rfl

/-- Claim C9 counterexample: a database holding one Drug (id 0) whose Inventory
row references it and nothing else. The claim says deleting the Drug must
be refused while the dependent Inventory exists; the code instead deletes
the Drug and cascades the Inventory row away. -/
theorem drug_delete_cascades_inventory_counterexample :
    (⟨[], [], [0], [0], [], [], [], [], []⟩ : RelDB).inventories ≠ []
      ∧ deleteDrug ⟨[], [], [0], [0], [], [], [], [], []⟩ 0
          = .ok ⟨[], [], [], [], [], [], [], [], []⟩ := by
  refine ⟨by simp, rfl⟩

/-- Claim C9 amended: deleting a Patient, Visit, StaffProfile, or Invoice while
any dependent record references it is refused (ProtectedError) and never
cascades; deleting a Drug is refused only while some PrescriptionItem
references it — its Inventory row does not protect it and is
cascade-deleted with the Drug; a Prescription's own items are likewise
cascade-deleted with the Prescription. -/
theorem protected_deletes_refused (db : RelDB) :
    (∀ p, ((∃ v ∈ db.visits, v.patient = p) ∨ (∃ i ∈ db.invoices, i.patient = p))
        → deletePatient db p = .error ())
      ∧ (∀ v, ((∃ r ∈ db.prescriptions, r.visit = v) ∨ (∃ i ∈ db.invoices, i.visit = v))
          → deleteVisit db v = .error ())
      ∧ (∀ s, ((∃ x ∈ db.visits, x.doctor = some s) ∨ (∃ r ∈ db.prescriptions, r.doctor = some s)
              ∨ (∃ i ∈ db.invoices, i.issued_by = some s) ∨ (∃ x ∈ db.payments, x.received_by = some s))
          → deleteStaffProfile db s = .error ())
      ∧ (∀ i, (∃ x ∈ db.payments, x.invoice = i) → deleteInvoice db i = .error ())
      ∧ (∀ d, (∃ it ∈ db.rxItems, it.drug = d) → deleteDrug db d = .error ())
      ∧ (∀ d, (¬ ∃ it ∈ db.rxItems, it.drug = d)
          → ∃ db', deleteDrug db d = .ok db' ∧ d ∉ db'.inventories ∧ d ∉ db'.drugs)
      ∧ (∀ r, ∃ db', deletePrescription db r = .ok db' ∧ ∀ it ∈ db'.rxItems, it.rx ≠ r) := by
  refine ⟨?_, ?_, ?_, ?_, ?_, ?_, ?_⟩
  · intro p hp
    have : (db.visits.any (fun v => v.patient = p) || db.invoices.any (fun i => i.patient = p)) = true := by
      simp only [Bool.or_eq_true, List.any_eq_true, decide_eq_true_eq]
      exact hp
    simp [deletePatient, this]
  · intro v hv
    have : (db.prescriptions.any (fun r => r.visit = v) || db.invoices.any (fun i => i.visit = v)) = true := by
      simp only [Bool.or_eq_true, List.any_eq_true, decide_eq_true_eq]
      exact hv
    simp [deleteVisit, this]
  · intro s hs
    have : (db.visits.any (fun x => x.doctor = some s)
        || db.prescriptions.any (fun r => r.doctor = some s)
        || db.invoices.any (fun i => i.issued_by = some s)
        || db.payments.any (fun x => x.received_by = some s)) = true := by
      simp only [Bool.or_eq_true, List.any_eq_true, decide_eq_true_eq]
      rcases hs with h | h | h | h
      · exact Or.inl (Or.inl (Or.inl h))
      · exact Or.inl (Or.inl (Or.inr h))
      · exact Or.inl (Or.inr h)
      · exact Or.inr h
    simp [deleteStaffProfile, this]
  · intro i hi
    have : db.payments.any (fun p => p.invoice = i) = true := by
      simp only [List.any_eq_true, decide_eq_true_eq]
      exact hi
    simp [deleteInvoice, this]
  · intro d hd
    have : db.rxItems.any (fun it => it.drug = d) = true := by
      simp only [List.any_eq_true, decide_eq_true_eq]
      exact hd
    simp [deleteDrug, this]
  · intro d hd
    have : db.rxItems.any (fun it => it.drug = d) = false := by
      simp only [List.any_eq_false, decide_eq_true_eq]
      intro it hit
      exact fun he => hd ⟨it, hit, he⟩
    refine ⟨{ db with drugs := db.drugs.filter (fun x => x ≠ d)
                      inventories := db.inventories.filter (fun x => x ≠ d) }, ?_, ?_, ?_⟩
    · simp [deleteDrug, this]
    · simp
    · simp
  · intro r
    refine ⟨_, rfl, ?_⟩
    intro it hit
    have h := (List.mem_filter.mp hit).2
    simpa using h

/-- Witness for the amended C9 at concrete databases: a visit referencing
patient 0 blocks the patient's deletion; deleting drug 5 (with an
inventory row, no prescription items) succeeds and removes the inventory
row. -/
theorem protected_deletes_refused_witness :
    deletePatient ⟨[0], [], [5], [5], [⟨0, 0, none⟩], [], [], [], []⟩ 0 = .error ()
      ∧ ∃ db', deleteDrug ⟨[0], [], [5], [5], [⟨0, 0, none⟩], [], [], [], []⟩ 5 = .ok db'
          ∧ 5 ∉ db'.inventories ∧ 5 ∉ db'.drugs :=
  ⟨(protected_deletes_refused ⟨[0], [], [5], [5], [⟨0, 0, none⟩], [], [], [], []⟩).1 0
      (Or.inl ⟨⟨0, 0, none⟩, by simp, rfl⟩),
   (protected_deletes_refused ⟨[0], [], [5], [5], [⟨0, 0, none⟩], [], [], [], []⟩).2.2.2.2.2.1 5
      (by simp)⟩

/-- Claim C10: the patient self-service profile edit changes only the
self-service fields of the caller's own row: patient_no, id_number,
gender and date_of_birth are unchanged, and every other patient row is
untouched. -/
theorem edit_profile_frame (db : Nat → Patient) (caller : Nat) (post : ProfilePost) :
    (patientEditProfileDB db caller post caller).patient_no = (db caller).patient_no
      ∧ (patientEditProfileDB db caller post caller).id_number = (db caller).id_number
      ∧ (patientEditProfileDB db caller post caller).gender = (db caller).gender
      ∧ (patientEditProfileDB db caller post caller).date_of_birth = (db caller).date_of_birth
      ∧ ∀ i, i ≠ caller → patientEditProfileDB db caller post i = db i := by
  refine ⟨?_, ?_, ?_, ?_, ?_⟩ <;>
    simp [patientEditProfileDB, patient_edit_profile]
  intro i hi
  simp [hi]

/-- Witness for C10 at a concrete row and post data: the protected fields
keep their values and another row is untouched. -/
theorem edit_profile_frame_witness :
    (patientEditProfileDB
        (fun _ => ⟨"P00001", "a", "M", some 1, "b", some "id1", "c", "d", "e", "A", "f", "g"⟩)
        0 ⟨some "z", none, none, none, none, none, none, none⟩ 0).patient_no
      = ((fun _ => (⟨"P00001", "a", "M", some 1, "b", some "id1", "c", "d", "e", "A", "f", "g"⟩ : Patient)) 0).patient_no
    ∧ patientEditProfileDB
        (fun _ => ⟨"P00001", "a", "M", some 1, "b", some "id1", "c", "d", "e", "A", "f", "g"⟩)
        0 ⟨some "z", none, none, none, none, none, none, none⟩ 1
      = (fun _ => (⟨"P00001", "a", "M", some 1, "b", some "id1", "c", "d", "e", "A", "f", "g"⟩ : Patient)) 1 :=
  ⟨(edit_profile_frame
      (fun _ => ⟨"P00001", "a", "M", some 1, "b", some "id1", "c", "d", "e", "A", "f", "g"⟩)
      0 ⟨some "z", none, none, none, none, none, none, none⟩).1,
   (edit_profile_frame
      (fun _ => ⟨"P00001", "a", "M", some 1, "b", some "id1", "c", "d", "e", "A", "f", "g"⟩)
      0 ⟨some "z", none, none, none, none, none, none, none⟩).2.2.2.2 1 (by decide)⟩

end MedicalManager

